import Mathlib

/-!
Verification of the py3xui core: the authenticated request/retry pipeline
(`py3xui/api/api_base.py`) and the string-encoded JSON model layer
(`py3xui/inbound/bases.py`, `settings.py`, `sniffing.py`).

Python values decoded from JSON are embedded as the inductive `Json`
below; JSON numbers are modelled as integers (no claim involves
floating point). Python `json.loads` is embedded as the executable
fueled parser `jsonLoads`; `raise`/`except` control flow is embedded as
`Except`.
-/

namespace Py3xui

/-- Embedding of a decoded JSON value (a Python value produced by
`json.loads`). Numbers are modelled as integers. -/
inductive Json where
  | null
  | bool (b : Bool)
  | num (n : Int)
  | str (s : String)
  | arr (xs : List Json)
  | obj (fields : List (String × Json))

/-- Python truthiness (`bool(v)`) of a decoded JSON value: `None`,
`False`, `0`, the empty string, the empty list and the empty dict are
falsy, everything else is truthy. -/
def pyTruthy : Json → Bool
  | .null => false
  | .bool b => b
  | .num n => decide (n ≠ 0)
  | .str s => decide (s ≠ "")
  | .arr xs => !xs.isEmpty
  | .obj fs => !fs.isEmpty

/-- Python truthiness of the result of `dict.get`: an absent key gives
`None`, which is falsy. -/
def pyTruthyOpt : Option Json → Bool
  | none => false
  | some v => pyTruthy v

/-- Whether a decoded value is a Python `str` (the branch condition of
`isinstance(values, str)` in `JsonStringModel.model_validate`). -/
def isStrJson : Json → Bool
  | .str _ => true
  | _ => false

/- ### A fueled JSON parser embedding Python `json.loads`. -/

/-- The opening-brace character of a JSON object. -/
def lcurly : Char := Char.ofNat 123

/-- The closing-brace character of a JSON object. -/
def rcurly : Char := Char.ofNat 125

/-- The double-quote character delimiting a JSON string. -/
def dquote : Char := Char.ofNat 34

/-- The backslash character starting a JSON escape sequence. -/
def bslash : Char := Char.ofNat 92

/-- Whether a character is JSON whitespace. -/
def isJsonWs (c : Char) : Bool :=
  c = ' ' || c = '\n' || c = '\t' || c = '\r'

/-- Drop leading JSON whitespace. -/
def skipWs : List Char → List Char
  | [] => []
  | c :: cs => if isJsonWs c then skipWs cs else c :: cs

/-- Whether a character is a decimal digit. -/
def isDigitCh (c : Char) : Bool := decide ('0' ≤ c) && decide (c ≤ '9')

/-- Parse a run of decimal digits into a natural number (given the
digits already known to be nonempty handling is done by the caller). -/
def parseDigits : List Char → Nat → Nat × List Char
  | [], acc => (acc, [])
  | c :: cs, acc =>
    if isDigitCh c then parseDigits cs (acc * 10 + (c.toNat - 48))
    else (acc, c :: cs)

/-- Parse the body of a JSON string after the opening quote, undoing the
escape sequences emitted by `json.dumps` for quote, backslash, slash and
the common control characters. -/
def parseStringBody : Nat → List Char → String → Option (String × List Char)
  | 0, _, _ => none
  | _ + 1, [], _ => none
  | fuel + 1, c :: cs, acc =>
    if c = dquote then some (acc, cs)
    else if c = bslash then
      match cs with
      | [] => none
      | e :: cs2 =>
        if e = dquote then parseStringBody fuel cs2 (acc.push dquote)
        else if e = bslash then parseStringBody fuel cs2 (acc.push bslash)
        else if e = '/' then parseStringBody fuel cs2 (acc.push '/')
        else if e = 'n' then parseStringBody fuel cs2 (acc.push '\n')
        else if e = 't' then parseStringBody fuel cs2 (acc.push '\t')
        else if e = 'r' then parseStringBody fuel cs2 (acc.push '\r')
        else if e = 'b' then parseStringBody fuel cs2 (acc.push (Char.ofNat 8))
        else if e = 'f' then parseStringBody fuel cs2 (acc.push (Char.ofNat 12))
        else none
    else parseStringBody fuel cs (acc.push c)

mutual

/-- Parse one JSON value from the character stream. -/
def parseVal : Nat → List Char → Option (Json × List Char)
  | 0, _ => none
  | fuel + 1, cs =>
    match skipWs cs with
    | [] => none
    | c :: rest =>
      if c = 'n' then
        match rest with
        | 'u' :: 'l' :: 'l' :: rest2 => some (.null, rest2)
        | _ => none
      else if c = 't' then
        match rest with
        | 'r' :: 'u' :: 'e' :: rest2 => some (.bool true, rest2)
        | _ => none
      else if c = 'f' then
        match rest with
        | 'a' :: 'l' :: 's' :: 'e' :: rest2 => some (.bool false, rest2)
        | _ => none
      else if c = dquote then
        match parseStringBody (fuel + 1) rest "" with
        | some (s, rest2) => some (.str s, rest2)
        | none => none
      else if c = '-' then
        match rest with
        | d :: _ =>
          if isDigitCh d then
            let (n, rest2) := parseDigits rest 0
            some (.num (-(n : Int)), rest2)
          else none
        | [] => none
      else if isDigitCh c then
        let (n, rest2) := parseDigits (c :: rest) 0
        some (.num (n : Int), rest2)
      else if c = '[' then
        match skipWs rest with
        | ']' :: rest2 => some (.arr [], rest2)
        | _ => parseArrItems fuel rest []
      else if c = lcurly then
        match skipWs rest with
        | b :: rest2 =>
          if b = rcurly then some (.obj [], rest2)
          else parseObjItems fuel rest []
        | [] => none
      else none

/-- Parse the remaining comma-separated items of a JSON array. -/
def parseArrItems : Nat → List Char → List Json → Option (Json × List Char)
  | 0, _, _ => none
  | fuel + 1, cs, acc =>
    match parseVal fuel cs with
    | none => none
    | some (v, rest) =>
      match skipWs rest with
      | ',' :: rest2 => parseArrItems fuel rest2 (acc ++ [v])
      | ']' :: rest2 => some (.arr (acc ++ [v]), rest2)
      | _ => none

/-- Parse the remaining comma-separated key-value pairs of a JSON
object. -/
def parseObjItems : Nat → List Char → List (String × Json) →
    Option (Json × List Char)
  | 0, _, _ => none
  | fuel + 1, cs, acc =>
    match skipWs cs with
    | q :: rest =>
      if q = dquote then
        match parseStringBody (fuel + 1) rest "" with
        | none => none
        | some (k, rest2) =>
          match skipWs rest2 with
          | ':' :: rest3 =>
            match parseVal fuel rest3 with
            | none => none
            | some (v, rest4) =>
              match skipWs rest4 with
              | ',' :: rest5 => parseObjItems fuel rest5 (acc ++ [(k, v)])
              | b :: rest5 =>
                if b = rcurly then some (.obj (acc ++ [(k, v)]), rest5)
                else none
              | [] => none
          | _ => none
      else none
    | [] => none

end

/-- Embedding of Python `json.loads`: parse a whole string as a single
JSON document, rejecting trailing garbage; `none` embeds
`json.JSONDecodeError`. -/
def jsonLoads (s : String) : Option Json :=
  match parseVal (s.length + 1) s.data with
  | some (v, rest) => if skipWs rest = [] then some v else none
  | none => none

/- ### The string-encoded JSON model layer (`py3xui/inbound/bases.py`). -/

/-- Embedding of `JsonStringModel.model_validate` (the
`model_validator(mode="before")` hook): if the raw input is a string,
try to JSON-decode it and return the decoded value; on decode failure
return the original string unchanged; non-string inputs pass through
unchanged. -/
def jsonStringModelValidate (values : Json) : Json :=
  match values with
  | .str s =>
    match jsonLoads s with
    | some v => v
    | none => .str s
  | v => v

/-- Look a field up in a decoded JSON object by wire key (pydantic reads
fields from the input dict by alias/name; extra keys are ignored). -/
def getField (fs : List (String × Json)) (k : String) : Option Json :=
  match fs with
  | [] => none
  | (k2, v) :: rest => if k2 = k then some v else getField rest k

/-- Standard field validation of a required/optional `bool` field. -/
def validateBool : Json → Except String Bool
  | .bool b => .ok b
  | _ => .error "value is not a valid boolean"

/-- Standard field validation of a `str` field. -/
def validateStr : Json → Except String String
  | .str s => .ok s
  | _ => .error "value is not a valid string"

/-- Standard field validation of a `list[str]` field. -/
def validateStrList : Json → Except String (List String)
  | .arr xs => goElems xs
  | _ => .error "value is not a valid list"
where
  goElems : List Json → Except String (List String)
    | [] => .ok []
    | x :: rest => do
      let s ← validateStr x
      let tail ← goElems rest
      .ok (s :: tail)

/-- Standard field validation of an untyped `list` field: the input must
be a list, its elements are kept as decoded values. -/
def validateListRaw : Json → Except String (List Json)
  | .arr xs => .ok xs
  | _ => .error "value is not a valid list"

/-- Embedding of the `Sniffing` model (`py3xui/inbound/sniffing.py`):
`enabled : bool` required; `dest_override : list[str]`,
`metadata_only : bool`, `route_only : bool` optional with wire aliases
`destOverride`, `metadataOnly`, `routeOnly`. -/
structure Sniffing where
  enabled : Bool
  dest_override : List String := []
  metadata_only : Bool := false
  route_only : Bool := false
deriving DecidableEq

/-- Construction of a `Sniffing` model from wire data: the
`JsonStringModel` pre-validation hook runs first, then standard
per-field required/type/alias validation on the resulting dict. -/
def sniffingFromWire (v : Json) : Except String Sniffing :=
  match jsonStringModelValidate v with
  | .obj fs => do
    let enabled ←
      match getField fs "enabled" with
      | some j => validateBool j
      | none => .error "field required: enabled"
    let destOv ←
      match getField fs "destOverride" with
      | some j => validateStrList j
      | none => .ok []
    let metaOnly ←
      match getField fs "metadataOnly" with
      | some j => validateBool j
      | none => .ok false
    let routeOnly ←
      match getField fs "routeOnly" with
      | some j => validateBool j
      | none => .ok false
    .ok ⟨enabled, destOv, metaOnly, routeOnly⟩
  | _ => .error "input is not a valid dict"

/-- Render a JSON string literal the way `json.dumps` does, escaping
backslash and double quote (the only escapes these models ever need). -/
def dumpStrChars : List Char → String
  | [] => ""
  | c :: cs =>
    (if c = dquote || c = bslash then
      (String.singleton bslash).push c
    else String.singleton c) ++ dumpStrChars cs

/-- Render a JSON string literal with its delimiting quotes. -/
def dumpStr (s : String) : String :=
  String.singleton dquote ++ dumpStrChars s.data ++ String.singleton dquote

/-- Render a JSON array of string literals. -/
def dumpStrListItems : List String → String
  | [] => ""
  | [s] => dumpStr s
  | s :: rest => dumpStr s ++ "," ++ dumpStrListItems rest

/-- Render a JSON bool the way `json.dumps` does. -/
def dumpBool (b : Bool) : String := if b then "true" else "false"

/-- Embedding of `Sniffing.model_dump_json(by_alias=True)`: the compact
JSON text of the model with wire aliases as keys. -/
def sniffingDumpJson (s : Sniffing) : String :=
  String.singleton lcurly ++
    dumpStr "enabled" ++ ":" ++ dumpBool s.enabled ++ "," ++
    dumpStr "destOverride" ++ ":[" ++ dumpStrListItems s.dest_override ++ "]," ++
    dumpStr "metadataOnly" ++ ":" ++ dumpBool s.metadata_only ++ "," ++
    dumpStr "routeOnly" ++ ":" ++ dumpBool s.route_only ++
  String.singleton rcurly

/-- The decoded-JSON object that `sniffingDumpJson` denotes; feeding the
dumped text through `json.loads` is expected to give exactly this
value. -/
def sniffingObj (s : Sniffing) : Json :=
  .obj [("enabled", .bool s.enabled),
        ("destOverride", .arr (s.dest_override.map .str)),
        ("metadataOnly", .bool s.metadata_only),
        ("routeOnly", .bool s.route_only)]

/-- Embedding of the `Settings` model (`py3xui/inbound/settings.py`):
`clients : list[Client] = []`, `decryption : str = ""`,
`fallbacks : list = []`.

Modelled from the spec: the `Client` model
(`py3xui/client/client.py`) is not under src/ — the spec describes it
only as a typed client record domain model — so elements of `clients`
are kept as their decoded wire objects rather than re-validated
field by field. -/
structure Settings where
  clients : List Json := []
  decryption : String := ""
  fallbacks : List Json := []

/-- Construction of a `Settings` model from wire data: the
`JsonStringModel` pre-validation hook runs first, then standard
per-field validation with the defaults of `settings.py`. -/
def settingsFromWire (v : Json) : Except String Settings :=
  match jsonStringModelValidate v with
  | .obj fs => do
    let clients ←
      match getField fs "clients" with
      | some j => validateListRaw j
      | none => .ok []
    let decryption ←
      match getField fs "decryption" with
      | some j => validateStr j
      | none => .ok ""
    let fallbacks ←
      match getField fs "fallbacks" with
      | some j => validateListRaw j
      | none => .ok []
    .ok ⟨clients, decryption, fallbacks⟩
  | _ => .error "input is not a valid dict"

/- ### The request/retry pipeline (`py3xui/api/api_base.py`). -/

/-- Embedding of the decoded response body as the documented wire
envelope: every response body is a JSON object with a `success` flag, a
`msg` string and an `obj` payload, each possibly absent (`dict.get`
returns `None` for an absent key). -/
structure Envelope where
  success : Option Json := none
  msg : Option String := none
  obj : Option Json := none

/-- Render the result of `response_json.get("msg")` inside the f-string
of `_check_response`: an absent key is Python `None`, which `str`
renders as the four characters `None`. -/
def strOfOptMsg : Option String → String
  | none => "None"
  | some s => s

/-- Embedding of the exceptions the pipeline can raise:
`requests.exceptions.ConnectionError`, `requests.exceptions.Timeout`,
`requests.exceptions.HTTPError` (from `raise_for_status`),
`ValueError` (from `_check_response` and `login`) and
`requests.exceptions.RetryError`. -/
inductive PyErr where
  | connectionError
  | timeout
  | httpError (status : Nat)
  | valueError (msg : String)
  | retryError (msg : String)
deriving DecidableEq

/-- Whether an exception is a transient transport failure, i.e. matched
by the `except (ConnectionError, Timeout)` clause. -/
def isTransientErr : PyErr → Bool
  | .connectionError => true
  | .timeout => true
  | _ => false

/-- Whether an exception is a retry-exhausted failure
(`requests.exceptions.RetryError`). -/
def isRetryErr : PyErr → Bool
  | .retryError _ => true
  | _ => false

/-- Embedding of an HTTP response object: status code, decoded JSON
body and cookie jar. -/
structure Response where
  status : Nat
  body : Envelope
  cookies : List (String × String) := []

/-- What the transport does on one attempt: raise a connection error,
raise a timeout, or return a response object. -/
inductive CallOutcome where
  | connectionError
  | timeout
  | response (r : Response)

/-- The transient transport error raised by an attempt, when there is
one. -/
def transientErrOf : CallOutcome → Option PyErr
  | .connectionError => some .connectionError
  | .timeout => some .timeout
  | .response _ => none

/-- Embedding of `BaseApi._check_response`: read `success` and `msg`
from the decoded body; if `success` is falsy (false or absent), raise
`ValueError` with the interpolated message; otherwise return with no
side effect. -/
def check_response (body : Envelope) : Except PyErr Unit :=
  let status := body.success
  let message := body.msg
  if pyTruthyOpt status then .ok ()
  else .error (.valueError ("API request failed with message: " ++ strOfOptMsg message))

/-- How one iteration of the retry loop classifies an attempt: return
the response, raise a fatal (non-retried) exception, or fall into the
transient-failure handler. -/
inductive StepResult where
  | done (r : Response)
  | fatal (e : PyErr)
  | transient (e : PyErr)

/-- One attempt of the loop body of `_request_with_retry`, given the
value `skip_check` popped on this iteration: a transport exception goes
to the transient handler; otherwise `raise_for_status` raises
`HTTPError` on an error status; otherwise the body is handed to
`_check_response` unless `skip_check` is set. The boolean records
whether `_check_response` was invoked. -/
def stepAttempt (skipCheck : Bool) : CallOutcome → StepResult × Bool
  | .connectionError => (.transient .connectionError, false)
  | .timeout => (.transient .timeout, false)
  | .response r =>
    if 400 ≤ r.status then (.fatal (.httpError r.status), false)
    else if skipCheck then (.done r, false)
    else
      match check_response r.body with
      | .ok _ => (.done r, true)
      | .error e => (.fatal e, true)

/-- The observable outcome of one call to `_request_with_retry`: the
returned response or raised exception, the number of transport attempts
made, the seconds slept between attempts in order, and the attempt
indices on which `_check_response` was invoked. -/
structure RunResult where
  result : Except PyErr Response
  attempts : Nat
  delays : List Nat
  checks : List Nat

/-- The body of the `for retry in range(1, max_retries + 1)` loop of
`_request_with_retry`, recursing over the remaining retry indices. Each
iteration pops `skip_check` from the kwargs (so after the first
iteration the kwargs no longer contain it and the popped value defaults
to `False`); on a transient failure at `retry == max_retries` the
transport error is re-raised, otherwise the loop sleeps
`1 * (retry + 1)` seconds and continues; when the range is exhausted a
`RetryError` is raised. -/
def requestLoop (maxRetries : Int) (url : String) (transport : Nat → CallOutcome) :
    List Nat → Option Bool → RunResult
  | [], _ =>
    ⟨.error (.retryError ("Max retries exceeded with no successful response to " ++ url)),
      0, [], []⟩
  | retry :: rest, kwargs =>
    let skipCheck := kwargs.getD false
    match stepAttempt skipCheck (transport retry) with
    | (.done resp, ck) => ⟨.ok resp, 1, [], if ck then [retry] else []⟩
    | (.fatal e, ck) => ⟨.error e, 1, [], if ck then [retry] else []⟩
    | (.transient e, ck) =>
      if (retry : Int) = maxRetries then ⟨.error e, 1, [], if ck then [retry] else []⟩
      else
        let res := requestLoop maxRetries url transport rest none
        ⟨res.result, res.attempts + 1, (retry + 1) :: res.delays,
          (if ck then [retry] else []) ++ res.checks⟩

/-- Embedding of Python `range(1, n + 1)` as a list: empty when
`n < 1`, else `[1, ..., n]`. -/
def pythonRange1 (n : Int) : List Nat :=
  (List.range n.toNat).map (· + 1)

/-- Embedding of `BaseApi._request_with_retry`: run the retry loop over
`range(1, max_retries + 1)` with the caller-supplied kwargs entry
`skip_check` (absent entry embeds as `none`). -/
def request_with_retry (maxRetries : Int) (url : String)
    (transport : Nat → CallOutcome) (skipCheck : Option Bool) : RunResult :=
  requestLoop maxRetries url transport (pythonRange1 maxRetries) skipCheck

/- ### Session state and the authenticator. -/

/-- Strip trailing slash characters from the host
(`host.rstrip("/")`). -/
def rstripSlash (s : String) : String :=
  ⟨(s.data.reverse.dropWhile (· = '/')).reverse⟩

/-- Embedding of the state held by `BaseApi`: host, credentials, retry
budget and the session cookie. -/
structure SessionState where
  host : String
  username : String
  password : String
  max_retries : Int := 3
  session : Option String := none
deriving DecidableEq

/-- Embedding of `BaseApi.__init__`: normalize the host and start with
`max_retries = 3` and no session. -/
def baseApiInit (host username password : String) : SessionState :=
  { host := rstripSlash host, username := username, password := password,
    max_retries := 3, session := none }

/-- Embedding of the `max_retries` setter: store the given value with
no validation. -/
def set_max_retries (st : SessionState) (value : Int) : SessionState :=
  { st with max_retries := value }

/-- Look a cookie up in the response cookie jar
(`response.cookies.get("session")`). -/
def getCookie (cookies : List (String × String)) (k : String) : Option String :=
  match cookies with
  | [] => none
  | (k2, v) :: rest => if k2 = k then some v else getCookie rest k

/-- Python truthiness of `cookies.get(...)`: absent (`None`) and the
empty string are falsy. -/
def pyFalsyStrOpt : Option String → Bool
  | none => true
  | some s => decide (s = "")

/-- Embedding of `BaseApi.login`: POST to `{host}/login` through
`_request_with_retry` (no `skip_check`, so the wire validator runs);
on a response, read the `session` cookie; if it is falsy raise
`ValueError`, otherwise store it into the session state. -/
def login (st : SessionState) (transport : Nat → CallOutcome) :
    Except PyErr Unit × SessionState :=
  let url := st.host ++ "/login"
  let run := request_with_retry st.max_retries url transport none
  match run.result with
  | .error e => (.error e, st)
  | .ok resp =>
    let cookie := getCookie resp.cookies "session"
    if pyFalsyStrOpt cookie then
      (.error (.valueError "Login failed: No session cookie received from the server."), st)
    else
      (.ok (), { st with session := cookie })

/-- The set of success-flag values the spec calls falsy: an absent
field or a decoded false/empty value. -/
def falsySuccess (s : Option Json) : Prop :=
  s = none ∨ s = some .null ∨ s = some (.bool false) ∨ s = some (.num 0) ∨
    s = some (.str "") ∨ s = some (.arr []) ∨ s = some (.obj [])

/-- Whether a run raised a retry-exhausted failure. -/
def resultIsRetryErr (r : RunResult) : Bool :=
  match r.result with
  | .error e => isRetryErr e
  | .ok _ => false

/-- A concrete successful response: HTTP 200 with a success envelope
and no cookies. -/
def okResponse : Response :=
  { status := 200, body := { success := some (.bool true) }, cookies := [] }

/-- A concrete HTTP 200 response whose envelope reports failure with no
message. -/
def failEnvResponse : Response :=
  { status := 200, body := { success := some (.bool false) }, cookies := [] }

/-- A concrete transport behaviour: transient connection errors on
every attempt before the given one, then a fixed response. -/
def transientsThen (k : Nat) (r : Response) : Nat → CallOutcome :=
  fun i => if i < k then .connectionError else .response r

/- ### Helper lemmas. -/

theorem hook_id_of_not_str (v : Json) (h : isStrJson v = false) :
    jsonStringModelValidate v = v := by
  cases v <;> first | rfl | simp [isStrJson] at h

theorem validateStrList_goElems_map (l : List String) :
    validateStrList.goElems (l.map .str) = .ok l := by
  induction l with
  | nil => rfl
  | cons a t ih =>
    simp only [List.map_cons, validateStrList.goElems, validateStr, ih]
    rfl

theorem check_response_error_shape (env : Envelope) (e : PyErr)
    (h : check_response env = .error e) :
    e = .valueError ("API request failed with message: " ++ strOfOptMsg env.msg) := by
  simp only [check_response] at h
  split at h
  · exact absurd h (by simp)
  · simpa using h.symm

theorem isRetryErr_false_ne (e : PyErr) (h : isRetryErr e = false) (m : String) :
    e ≠ .retryError m := by
  cases e <;> simp [isRetryErr] at h ⊢

theorem stepAttempt_fatal_shape (sc : Bool) (o : CallOutcome) (e : PyErr) (ck : Bool)
    (h : stepAttempt sc o = (.fatal e, ck)) : isRetryErr e = false := by
  cases o with
  | connectionError => simp [stepAttempt] at h
  | timeout => simp [stepAttempt] at h
  | response r =>
    simp only [stepAttempt] at h
    split at h
    · simp only [Prod.mk.injEq, StepResult.fatal.injEq] at h
      rw [← h.1]
      rfl
    · split at h
      · simp at h
      · rcases hc : check_response r.body with e2 | u
        · rw [hc] at h
          simp only [Prod.mk.injEq, StepResult.fatal.injEq] at h
          rw [← h.1, check_response_error_shape r.body e2 hc]
          rfl
        · rw [hc] at h
          simp at h

theorem stepAttempt_transient_shape (sc : Bool) (o : CallOutcome) (e : PyErr) (ck : Bool)
    (h : stepAttempt sc o = (.transient e, ck)) :
    e = .connectionError ∨ e = .timeout := by
  cases o with
  | connectionError =>
    simp only [stepAttempt, Prod.mk.injEq, StepResult.transient.injEq] at h
    exact Or.inl h.1.symm
  | timeout =>
    simp only [stepAttempt, Prod.mk.injEq, StepResult.transient.injEq] at h
    exact Or.inr h.1.symm
  | response r =>
    simp only [stepAttempt] at h
    split at h
    · simp at h
    · split at h
      · simp at h
      · rcases hc : check_response r.body with e2 | u <;> rw [hc] at h <;> simp at h

theorem requestLoop_append_transients (maxR : Int) (url : String) (t : Nat → CallOutcome) :
    ∀ (l1 rest : List Nat),
      (∀ r ∈ l1, (t r = .connectionError ∨ t r = .timeout) ∧ (r : Int) ≠ maxR) →
      requestLoop maxR url t (l1 ++ rest) none =
        ⟨(requestLoop maxR url t rest none).result,
         (requestLoop maxR url t rest none).attempts + l1.length,
         l1.map (· + 1) ++ (requestLoop maxR url t rest none).delays,
         (requestLoop maxR url t rest none).checks⟩ := by
  intro l1
  induction l1 with
  | nil => intro rest _; simp
  | cons a l2 ih =>
    intro rest h
    have ha := h a (by simp)
    have hrest := ih rest (fun r hr => h r (by simp [hr]))
    show requestLoop maxR url t (a :: (l2 ++ rest)) none = _
    rcases ha.1 with hta | hta <;>
      simp only [requestLoop, hta, Option.getD, stepAttempt, if_neg ha.2, hrest,
        RunResult.mk.injEq, List.map_cons, List.cons_append, List.length_cons,
        List.nil_append, true_and] <;>
      exact ⟨by omega, by simp⟩

theorem pythonRange1_natCast (n : Nat) :
    pythonRange1 (n : Int) = (List.range n).map (· + 1) := by
  simp [pythonRange1]

theorem pythonRange1_getLast (n : Nat) (h : 1 ≤ n) :
    (pythonRange1 (n : Int)).getLast? = some n := by
  obtain ⟨m, rfl⟩ : ∃ m, n = m + 1 := ⟨n - 1, by omega⟩
  rw [pythonRange1_natCast, List.range_succ, List.map_append]
  simp [List.getLast?_concat]

theorem range1_split (k n : Nat) (h1 : 1 ≤ k) (h2 : k ≤ n) :
    (List.range n).map (· + 1) =
      ((List.range (k - 1)).map (· + 1)) ++ ((List.range (n - k + 1)).map (· + k)) := by
  have hn : n = (k - 1) + (n - k + 1) := by omega
  nth_rewrite 1 [hn]
  rw [List.range_add, List.map_append, List.map_map]
  congr 1
  apply List.map_congr_left
  intro x _
  simp only [Function.comp_apply]
  omega

theorem requestLoop_no_retryErr (maxR : Int) (url : String) (t : Nat → CallOutcome) :
    ∀ (l : List Nat) (kw : Option Bool) (n : Nat), l.getLast? = some n → (n : Int) = maxR →
      ∀ msg, (requestLoop maxR url t l kw).result ≠ .error (.retryError msg) := by
  intro l
  induction l with
  | nil => intro kw n hl; simp at hl
  | cons a l2 ih =>
    intro kw n hl hn msg
    cases l2 with
    | nil =>
      have han : a = n := by simpa using hl
      simp only [requestLoop]
      rcases hs : stepAttempt (kw.getD false) (t a) with ⟨sr, ck⟩
      cases sr with
      | done r => simp
      | fatal e =>
        have := isRetryErr_false_ne e (stepAttempt_fatal_shape _ _ _ _ hs) msg
        simpa using this
      | transient e =>
        dsimp only
        rw [if_pos (han ▸ hn)]
        rcases stepAttempt_transient_shape _ _ _ _ hs with rfl | rfl <;> simp
    | cons b l3 =>
      rw [List.getLast?_cons_cons] at hl
      simp only [requestLoop]
      rcases hs : stepAttempt (kw.getD false) (t a) with ⟨sr, ck⟩
      cases sr with
      | done r => simp
      | fatal e =>
        have := isRetryErr_false_ne e (stepAttempt_fatal_shape _ _ _ _ hs) msg
        simpa using this
      | transient e =>
        dsimp only
        by_cases hcase : (a : Int) = maxR
        · rw [if_pos hcase]
          rcases stepAttempt_transient_shape _ _ _ _ hs with rfl | rfl <;> simp
        · rw [if_neg hcase]
          exact ih none n hl hn msg

theorem request_scenario (n k : Nat) (url : String) (t : Nat → CallOutcome)
    (hk1 : 1 ≤ k) (hkn : k ≤ n)
    (htrans : ∀ i, 1 ≤ i → i < k → t i = .connectionError ∨ t i = .timeout) :
    request_with_retry (n : Int) url t none =
      ⟨(requestLoop (n : Int) url t ((List.range (n - k + 1)).map (· + k)) none).result,
       (requestLoop (n : Int) url t ((List.range (n - k + 1)).map (· + k)) none).attempts + (k - 1),
       (List.range (k - 1)).map (· + 2) ++
         (requestLoop (n : Int) url t ((List.range (n - k + 1)).map (· + k)) none).delays,
       (requestLoop (n : Int) url t ((List.range (n - k + 1)).map (· + k)) none).checks⟩ := by
  rw [request_with_retry, pythonRange1_natCast, range1_split k n hk1 hkn]
  rw [requestLoop_append_transients (n : Int) url t ((List.range (k - 1)).map (· + 1)) _ ?side]
  case side =>
    intro r hr
    obtain ⟨x, hx, rfl⟩ := List.mem_map.mp hr
    rw [List.mem_range] at hx
    refine ⟨htrans (x + 1) (by omega) (by omega), ?_⟩
    have : x + 1 < n := by omega
    omega
  have hmap : (List.map (· + 1) (List.range (k - 1))).map (· + 1) =
      (List.range (k - 1)).map (· + 2) := by
    rw [List.map_map]
    apply List.map_congr_left
    intro x _
    simp
  simp [hmap]

theorem requestLoop_cons_success (maxR : Int) (url : String) (t : Nat → CallOutcome)
    (k : Nat) (tail : List Nat) (r : Response)
    (hres : t k = .response r) (hstatus : r.status < 400)
    (hcheck : check_response r.body = .ok ()) :
    requestLoop maxR url t (k :: tail) none = ⟨.ok r, 1, [], [k]⟩ := by
  simp only [requestLoop, Option.getD, hres, stepAttempt,
    if_neg (by omega : ¬ 400 ≤ r.status), if_neg (Bool.false_ne_true), hcheck]
  rfl

/-- Claim C1 (amended): between consecutive transient-failure attempts
the Request Engine sleeps `1 * (retry + 1)` seconds, i.e. the delay
after the i-th failed attempt is `i + 1` base units (2s after the
first, 3s after the second, ...), not `i` units; in the scenario with
transient failures on every attempt before attempt `k` and a validated
success on attempt `k ≤ max_retries`, the run returns the response
after exactly `k` attempts with delays `[2, 3, ..., k]` seconds. -/
theorem c1_linear_delay_amended (n k : Nat) (url : String)
    (t : Nat → CallOutcome) (r : Response)
    (hk1 : 1 ≤ k) (hkn : k ≤ n)
    (htrans : ∀ i, 1 ≤ i → i < k → t i = .connectionError ∨ t i = .timeout)
    (hres : t k = .response r) (hstatus : r.status < 400)
    (hcheck : check_response r.body = .ok ()) :
    (request_with_retry (n : Int) url t none).result = .ok r ∧
    (request_with_retry (n : Int) url t none).attempts = k ∧
    (request_with_retry (n : Int) url t none).delays =
      (List.range (k - 1)).map (· + 2) := by
  have hsplit := request_scenario n k url t hk1 hkn htrans
  have hrest : (List.range (n - k + 1)).map (· + k) =
      k :: (List.range (n - k)).map (fun x => x + 1 + k) := by
    have : n - k + 1 = (n - k) + 1 := rfl
    rw [this, List.range_succ_eq_map, List.map_cons, List.map_map]
    simp [Function.comp, Nat.succ_eq_add_one]
  rw [hrest] at hsplit
  rw [requestLoop_cons_success (n : Int) url t k _ r hres hstatus hcheck] at hsplit
  rw [hsplit]
  refine ⟨rfl, by simp; omega, by simp⟩

/-- Witness for C1 at `max_retries = 3`, connection errors on attempts
1 and 2 and a success on attempt 3: the response is returned after
exactly 3 attempts with delays of 2 and 3 seconds. -/
theorem c1_linear_delay_amended_witness :
    (request_with_retry (3 : Int) "http://host" (transientsThen 3 okResponse) none).result =
      .ok okResponse ∧
    (request_with_retry (3 : Int) "http://host" (transientsThen 3 okResponse) none).attempts = 3 ∧
    (request_with_retry (3 : Int) "http://host" (transientsThen 3 okResponse) none).delays =
      (List.range 2).map (· + 2) :=
  c1_linear_delay_amended 3 3 "http://host" (transientsThen 3 okResponse) okResponse
    (by decide) (by decide)
    (fun i _ h2 => Or.inl (by simp [transientsThen, h2]))
    (by simp [transientsThen]) (by decide) rfl

/-- Counterexample to C1 as stated: in the spec scenario
(`max_retries = 3`, transient failures on attempts 1 and 2, success on
attempt 3) the delays inserted between attempts are 2s and 3s, not the
claimed 1s and 2s. -/
theorem c1_counterexample :
    (request_with_retry (3 : Int) "http://host" (transientsThen 3 okResponse) none).delays =
      [2, 3] ∧
    (request_with_retry (3 : Int) "http://host" (transientsThen 3 okResponse) none).delays ≠
      [1, 2] := by
  exact ⟨by decide, by decide⟩


/-- Claim C2 (amended): after exactly `max_retries` consecutive
transient transport failures, `_request_with_retry` has performed
exactly `max_retries` attempts and re-raises the last transport error
itself (the `retry == max_retries` branch raises `e` directly); it does
not wrap it in a retry-exhausted `RetryError`. -/
theorem c2_exhaustion_amended (n : Nat) (url : String)
    (t : Nat → CallOutcome) (e : PyErr) (hn : 1 ≤ n)
    (htrans : ∀ i, 1 ≤ i → i < n → t i = .connectionError ∨ t i = .timeout)
    (hlast : transientErrOf (t n) = some e) :
    (request_with_retry (n : Int) url t none).result = .error e ∧
    (request_with_retry (n : Int) url t none).attempts = n ∧
    (request_with_retry (n : Int) url t none).delays =
      (List.range (n - 1)).map (· + 2) ∧
    isTransientErr e = true ∧ isRetryErr e = false := by
  have hsplit := request_scenario n n url t hn (le_refl n) htrans
  have hrest : (List.range (n - n + 1)).map (· + n) = [n] := by
    have h1 : n - n + 1 = 1 := by omega
    rw [h1, show List.range 1 = [0] from rfl, List.map_cons, List.map_nil, Nat.zero_add]
  rw [hrest] at hsplit
  have hstep : requestLoop (n : Int) url t [n] none = ⟨.error e, 1, [], []⟩ := by
    rcases ht : t n with _ | _ | r
    · rw [ht] at hlast
      obtain rfl : PyErr.connectionError = e := by simpa [transientErrOf] using hlast
      simp [requestLoop, ht, stepAttempt]
    · rw [ht] at hlast
      obtain rfl : PyErr.timeout = e := by simpa [transientErrOf] using hlast
      simp [requestLoop, ht, stepAttempt]
    · rw [ht] at hlast
      simp [transientErrOf] at hlast
  rw [hstep] at hsplit
  rw [hsplit]
  have he : isTransientErr e = true ∧ isRetryErr e = false := by
    rcases ht : t n with _ | _ | r <;> rw [ht] at hlast <;>
      simp [transientErrOf] at hlast
    · rw [← hlast]; exact ⟨rfl, rfl⟩
    · rw [← hlast]; exact ⟨rfl, rfl⟩
  exact ⟨rfl, by simp; omega, by simp, he.1, he.2⟩

/-- Witness for C2 at `max_retries = 3` with a connection error on
every attempt: exactly 3 attempts, and the raised failure is the last
connection error, transient and not a RetryError. -/
theorem c2_exhaustion_amended_witness :
    (request_with_retry (3 : Int) "http://host" (fun _ => .connectionError) none).result =
      .error .connectionError ∧
    (request_with_retry (3 : Int) "http://host" (fun _ => .connectionError) none).attempts = 3 ∧
    (request_with_retry (3 : Int) "http://host" (fun _ => .connectionError) none).delays =
      (List.range 2).map (· + 2) ∧
    isTransientErr .connectionError = true ∧ isRetryErr .connectionError = false :=
  c2_exhaustion_amended 3 "http://host" (fun _ => .connectionError) .connectionError
    (by decide) (fun i _ _ => Or.inl rfl) rfl

/-- Counterexample to C2 as stated: with `max_retries = 3` and
connection errors on all attempts, the run raises the last
`ConnectionError` itself after 3 attempts; it does not raise a
retry-exhausted failure. -/
theorem c2_counterexample :
    (request_with_retry (3 : Int) "http://host" (fun _ => .connectionError) none).result =
      .error .connectionError ∧
    resultIsRetryErr
      (request_with_retry (3 : Int) "http://host" (fun _ => .connectionError) none) = false ∧
    (request_with_retry (3 : Int) "http://host" (fun _ => .connectionError) none).attempts = 3 := by
  exact ⟨rfl, by decide, by decide⟩

/-- Claim C3 (confirmed): a logical failure on the first attempt — an
HTTP error status caught by `raise_for_status`, or an envelope that
fails `_check_response` — raises immediately after exactly one
attempt, with no backoff delay, for every retry budget of at least one;
the raised failure is neither a transient transport error nor a
retry-exhausted failure. -/
theorem c3_logical_failure_no_retry (n : Nat) (url : String)
    (t : Nat → CallOutcome) (kw : Option Bool) (r : Response)
    (hn : 1 ≤ n) (h1 : t 1 = .response r) (hsc : kw.getD false = false)
    (hlog : 400 ≤ r.status ∨ ∃ m, check_response r.body = .error (.valueError m)) :
    (request_with_retry (n : Int) url t kw).attempts = 1 ∧
    (request_with_retry (n : Int) url t kw).delays = [] ∧
    ∃ e, (request_with_retry (n : Int) url t kw).result = .error e ∧
      isTransientErr e = false ∧ isRetryErr e = false := by
  obtain ⟨m0, rfl⟩ : ∃ m0, n = m0 + 1 := ⟨n - 1, by omega⟩
  rw [request_with_retry, pythonRange1_natCast, List.range_succ_eq_map, List.map_cons]
  simp only [requestLoop, hsc, h1, stepAttempt]
  by_cases hst : 400 ≤ r.status
  · rw [if_pos hst]
    exact ⟨rfl, rfl, .httpError r.status, rfl, rfl, rfl⟩
  · rcases hlog with h4 | ⟨m, hm⟩
    · exact absurd h4 hst
    · rw [if_neg hst, if_neg (Bool.false_ne_true), hm]
      exact ⟨rfl, rfl, .valueError m, rfl, rfl, rfl⟩

/-- Witness for C3: an HTTP 200 response whose envelope has
`success: false` on the first attempt raises after exactly one attempt
with no delay. -/
theorem c3_logical_failure_no_retry_witness :
    (request_with_retry (3 : Int) "http://host"
      (fun _ => .response failEnvResponse) none).attempts = 1 ∧
    (request_with_retry (3 : Int) "http://host"
      (fun _ => .response failEnvResponse) none).delays = [] ∧
    ∃ e, (request_with_retry (3 : Int) "http://host"
      (fun _ => .response failEnvResponse) none).result = .error e ∧
      isTransientErr e = false ∧ isRetryErr e = false :=
  c3_logical_failure_no_retry 3 "http://host" (fun _ => .response failEnvResponse)
    none failEnvResponse (by decide) rfl rfl
    (Or.inr ⟨"API request failed with message: None", rfl⟩)


/-- Claim C4 (code bug): `_request_with_retry` pops `skip_check` from
the kwargs inside the retry loop, so the opt-out only survives the
first attempt. Evaluated at the failing input — `skip_check=True`,
`max_retries = 3`, a connection error on attempt 1 and an HTTP 200
response with a `success: false` envelope on attempt 2 — the retried
attempt hands the body to `_check_response` (recorded in `checks`) and
raises `ValueError`, even though the caller opted out of validation;
the same call with a response already on attempt 1 skips validation
and returns the raw response. -/
theorem c4_skip_check_lost_on_retry :
    (request_with_retry (3 : Int) "http://host" (transientsThen 2 failEnvResponse)
      (some true)).checks = [2] ∧
    (request_with_retry (3 : Int) "http://host" (transientsThen 2 failEnvResponse)
      (some true)).result =
      .error (.valueError "API request failed with message: None") ∧
    (request_with_retry (3 : Int) "http://host" (transientsThen 1 failEnvResponse)
      (some true)).checks = [] ∧
    (request_with_retry (3 : Int) "http://host" (transientsThen 1 failEnvResponse)
      (some true)).result = .ok failEnvResponse := by
  exact ⟨by decide, rfl, by decide, rfl⟩

/-- Claim C10 (confirmed): the `max_retries` setter stores any integer
without validating the documented lower bound; for a stored value below
1 the loop range is empty, so the pipeline makes zero attempts, sleeps
never, invokes the validator never, and raises a bare `RetryError`
carrying no transport error; and for every budget of at least 1 the
trailing `RetryError` is unreachable — the run never raises a
retry-exhausted failure. -/
theorem c10_retry_budget_edges :
    (∀ (st : SessionState) (v : Int), (set_max_retries st v).max_retries = v) ∧
    (∀ (m : Int) (url : String) (t : Nat → CallOutcome) (kw : Option Bool), m < 1 →
      request_with_retry m url t kw =
        ⟨.error (.retryError ("Max retries exceeded with no successful response to " ++ url)),
          0, [], []⟩) ∧
    (∀ (n : Nat) (url : String) (t : Nat → CallOutcome) (kw : Option Bool)
        (msg : String), 1 ≤ n →
      (request_with_retry (n : Int) url t kw).result ≠ .error (.retryError msg)) := by
  refine ⟨fun st v => rfl, ?_, ?_⟩
  · intro m url t kw hm
    have h0 : pythonRange1 m = [] := by
      have : m.toNat = 0 := Int.toNat_of_nonpos (by omega)
      simp [pythonRange1, this]
    rw [request_with_retry, h0]
    rfl
  · intro n url t kw msg hn
    exact requestLoop_no_retryErr (n : Int) url t (pythonRange1 (n : Int)) kw n
      (pythonRange1_getLast n hn) rfl msg

/-- Witness for C10: the setter accepts 0; with budget 0 the run makes
no attempt and raises the bare RetryError; with the default budget 3 a
run that fails on all attempts does not raise a RetryError. -/
theorem c10_retry_budget_edges_witness :
    (set_max_retries (baseApiInit "http://host" "u" "p") 0).max_retries = 0 ∧
    request_with_retry (0 : Int) "http://host" (fun _ => .connectionError) none =
      ⟨.error (.retryError "Max retries exceeded with no successful response to http://host"),
        0, [], []⟩ ∧
    (request_with_retry ((3 : Nat) : Int) "http://host" (fun _ => .connectionError) none).result ≠
      .error (.retryError "Max retries exceeded with no successful response to http://host") :=
  ⟨c10_retry_budget_edges.1 (baseApiInit "http://host" "u" "p") 0,
   c10_retry_budget_edges.2.1 0 "http://host" (fun _ => .connectionError) none (by decide),
   c10_retry_budget_edges.2.2 3 "http://host" (fun _ => .connectionError) none
     "Max retries exceeded with no successful response to http://host" (by decide)⟩


/-- Claim C5 (amended): for every envelope whose `success` field is
falsy (absent, or a decoded false/empty value), `_check_response`
raises `ValueError` carrying the envelope message interpolated into
the fixed prefix, no matter what `obj` contains; when the message
field is absent the carried message is the Python rendering `None` of
the absent value, not the empty string; when `success` is truthy it
returns `()` with no effect. -/
theorem c5_validator_amended (env : Envelope) :
    (falsySuccess env.success →
      check_response env =
        .error (.valueError ("API request failed with message: " ++ strOfOptMsg env.msg))) ∧
    (pyTruthyOpt env.success = true → check_response env = .ok ()) ∧
    (∀ o, check_response { env with obj := o } = check_response env) ∧
    (env.msg = none → strOfOptMsg env.msg = "None") := by
  refine ⟨?_, ?_, fun o => rfl, fun h => by rw [h]; rfl⟩
  · intro hf
    have hfs : pyTruthyOpt env.success = false := by
      rcases hf with h | h | h | h | h | h | h <;> rw [h] <;> rfl
    simp only [check_response, hfs]
    rfl
  · intro ht
    simp only [check_response, ht]
    rfl

/-- Witness for C5: an envelope with `success: false` and message
`boom` raises with that message; one with `success: true` passes. -/
theorem c5_validator_amended_witness :
    check_response ⟨some (.bool false), some "boom", none⟩ =
      .error (.valueError "API request failed with message: boom") ∧
    check_response ⟨some (.bool true), none, none⟩ = .ok () :=
  ⟨(c5_validator_amended ⟨some (.bool false), some "boom", none⟩).1
      (Or.inr (Or.inr (Or.inl rfl))),
   (c5_validator_amended ⟨some (.bool true), none, none⟩).2.1 rfl⟩

/-- Counterexample to C5 as stated: with `success: false` and an absent
message field, the raised ValueError carries the text
`API request failed with message: None` — the f-string renders the
absent message as `None`, not as the empty string. -/
theorem c5_counterexample :
    check_response ⟨some (.bool false), none, none⟩ =
      .error (.valueError "API request failed with message: None") ∧
    check_response ⟨some (.bool false), none, none⟩ ≠
      .error (.valueError "API request failed with message: ") := by
  refine ⟨rfl, ?_⟩
  intro h
  rw [show check_response ⟨some (.bool false), none, none⟩ =
    .error (.valueError "API request failed with message: None") from rfl] at h
  simp at h

/-- Claim C6 (confirmed): when the login call returns a response that
passed transport and wire validation but the cookie jar has no
non-empty `session` cookie, `login` raises a `ValueError` distinct
from every transient transport failure and from every wire-validator
failure message, and the session state is returned unchanged (the
token stays unset if it was unset). -/
theorem c6_login_no_cookie (st : SessionState) (t : Nat → CallOutcome) (resp : Response)
    (hok : (request_with_retry st.max_retries (st.host ++ "/login") t none).result = .ok resp)
    (hcookie : pyFalsyStrOpt (getCookie resp.cookies "session") = true) :
    login st t =
      (.error (.valueError "Login failed: No session cookie received from the server."), st) ∧
    (login st t).2.session = st.session ∧
    isTransientErr (.valueError "Login failed: No session cookie received from the server.") =
      false ∧
    ∀ m, (PyErr.valueError "Login failed: No session cookie received from the server.") ≠
      .valueError ("API request failed with message: " ++ m) := by
  have hlogin : login st t =
      (.error (.valueError "Login failed: No session cookie received from the server."), st) := by
    unfold login
    dsimp only
    rw [hok]
    dsimp only
    rw [if_pos hcookie]
  refine ⟨hlogin, by rw [hlogin], rfl, ?_⟩
  intro m h
  have h2 : "Login failed: No session cookie received from the server." =
      "API request failed with message: " ++ m := by
    injection h
  have hL : ("Login failed: No session cookie received from the server.").data.head? =
      some (Char.ofNat 76) := rfl
  rw [h2] at hL
  rw [show ("API request failed with message: " ++ m).data.head? = some (Char.ofNat 65) from by
    rw [String.data_append]; rfl] at hL
  simp at hL

/-- Witness for C6: a login whose only attempt returns HTTP 200 with a
valid success envelope and an empty cookie jar raises the
authentication ValueError and leaves the session unset. -/
theorem c6_login_no_cookie_witness :
    login (baseApiInit "http://host" "u" "p") (fun _ => .response okResponse) =
      (.error (.valueError "Login failed: No session cookie received from the server."),
        baseApiInit "http://host" "u" "p") ∧
    (login (baseApiInit "http://host" "u" "p") (fun _ => .response okResponse)).2.session =
      (baseApiInit "http://host" "u" "p").session ∧
    isTransientErr (.valueError "Login failed: No session cookie received from the server.") =
      false ∧
    ∀ m, (PyErr.valueError "Login failed: No session cookie received from the server.") ≠
      .valueError ("API request failed with message: " ++ m) :=
  c6_login_no_cookie (baseApiInit "http://host" "u" "p") (fun _ => .response okResponse)
    okResponse rfl rfl


/-- Claim C7 (confirmed): a string-encoded field and its structured
counterpart construct the same model value (shown for the two fully
specified string-encoded models, `Sniffing` and `Settings`, given that
the decoder recovers the structured value from the encoded string); the
spec scenario — a `settings` field arriving as the string
`{"clients": []}` — constructs with `clients` equal to the empty list;
and re-encoding a `Sniffing` model to its JSON text with
`model_dump_json(by_alias=True)` and feeding it back through the model
layer reconstructs a value equal to the original. -/
theorem c7_string_encoded_equivalence :
    (∀ (s : String) (v : Json), jsonLoads s = some v → isStrJson v = false →
      sniffingFromWire (.str s) = sniffingFromWire v) ∧
    (∀ (s : String) (v : Json), jsonLoads s = some v → isStrJson v = false →
      settingsFromWire (.str s) = settingsFromWire v) ∧
    settingsFromWire (.str "\x7b\"clients\": []\x7d") = .ok ⟨[], "", []⟩ ∧
    (∀ sn : Sniffing, jsonLoads (sniffingDumpJson sn) = some (sniffingObj sn) →
      sniffingFromWire (.str (sniffingDumpJson sn)) = .ok sn) := by
  refine ⟨?_, ?_, rfl, ?_⟩
  · intro s v h hv
    unfold sniffingFromWire
    rw [show jsonStringModelValidate (.str s) = v from by
      simp [jsonStringModelValidate, h], hook_id_of_not_str v hv]
  · intro s v h hv
    unfold settingsFromWire
    rw [show jsonStringModelValidate (.str s) = v from by
      simp [jsonStringModelValidate, h], hook_id_of_not_str v hv]
  · intro sn h
    unfold sniffingFromWire
    rw [show jsonStringModelValidate (.str (sniffingDumpJson sn)) = sniffingObj sn from by
      simp [jsonStringModelValidate, h]]
    rcases sn with ⟨e, d, m, r⟩
    simp [sniffingObj, getField, validateBool, validateStrList, validateStrList_goElems_map]
    rfl

/-- Witness for C7: concrete instances — `{"enabled": true}` as a
string and as an object construct the same `Sniffing`; the same for a
concrete `Settings` payload; and a concrete `Sniffing` model survives
the dump/re-validate round trip. -/
theorem c7_string_encoded_equivalence_witness :
    sniffingFromWire (.str "\x7b\"enabled\": true\x7d") =
      sniffingFromWire (.obj [("enabled", .bool true)]) ∧
    settingsFromWire (.str "\x7b\"decryption\": \"aes\"\x7d") =
      settingsFromWire (.obj [("decryption", .str "aes")]) ∧
    sniffingFromWire (.str (sniffingDumpJson ⟨true, ["ha"], false, false⟩)) =
      .ok ⟨true, ["ha"], false, false⟩ :=
  ⟨c7_string_encoded_equivalence.1 "\x7b\"enabled\": true\x7d"
      (.obj [("enabled", .bool true)]) rfl rfl,
   c7_string_encoded_equivalence.2.1 "\x7b\"decryption\": \"aes\"\x7d"
      (.obj [("decryption", .str "aes")]) rfl rfl,
   c7_string_encoded_equivalence.2.2.2 ⟨true, ["ha"], false, false⟩ rfl⟩

/-- Claim C8 (confirmed): when the raw input is a string that does not
decode as JSON, the pre-validation hook returns the original string
unchanged rather than raising a decoding error, leaving any failure to
standard field validation. -/
theorem c8_hook_invalid_json (s : String) (h : jsonLoads s = none) :
    jsonStringModelValidate (.str s) = .str s := by
  simp [jsonStringModelValidate, h]

/-- Witness for C8: the string `not json` does not decode, and the hook
passes it through unchanged. -/
theorem c8_hook_invalid_json_witness :
    jsonLoads "not json" = none ∧
    jsonStringModelValidate (.str "not json") = .str "not json" :=
  ⟨rfl, c8_hook_invalid_json "not json" rfl⟩

/-- Claim C9 (confirmed): the pre-validation hook is the identity on
every non-string input, hence idempotent on structured values. -/
theorem c9_hook_non_string_identity (v : Json) (h : isStrJson v = false) :
    jsonStringModelValidate v = v :=
  hook_id_of_not_str v h

/-- Witness for C9: an already-structured object passes through the
hook unchanged. -/
theorem c9_hook_non_string_identity_witness :
    isStrJson (.obj [("enabled", .bool true)]) = false ∧
    jsonStringModelValidate (.obj [("enabled", .bool true)]) = .obj [("enabled", .bool true)] :=
  ⟨rfl, c9_hook_non_string_identity (.obj [("enabled", .bool true)]) rfl⟩

end Py3xui
